import Mathlib

/-!
Verification of the Visio-to-Markdown converter
(`visio_to_markdown_standalone.py`) against its natural-language
specification.

The converter consumes an opaque, duck-typed object graph coming from the
`vsdx` library.  We embed that graph shallowly:

* a `Heap` maps object identifiers to attribute tables, so the native
  object graph may be arbitrary — including cyclic child references;
* an attribute slot (`Getter`) records how Python's `getattr` behaves on
  it: a plain data value, a zero-argument callable (whose invocation may
  raise), or a raising descriptor.  Python's `hasattr` swallows only
  `AttributeError`, so a slot whose lookup raises some other exception is
  distinguished (`raiseOther`) from one raising `AttributeError`
  (`raiseAttr`);
* `Value` is the universe of plain Python values the converter
  manipulates: `None`, ints, strings, booleans, lists, dicts (with string
  keys — the only dicts the code touches), and references into the heap.

Machinery such as Python truthiness (`truthy`), `str()` (`pyStr`),
`str.strip` / `str.lower` and iteration (`iterToList`) is modelled
explicitly.  `str()` of lists, dicts and objects is left as an abstract
token: the converter never renders a container or raw object through
`str()` on any path the claims touch (Python would print a `repr` or a
memory address there).
-/

/-- Identifier of a native object in the heap. -/
abbrev ObjId := Nat

/-- Plain Python values flowing through the converter. -/
inductive Value where
  | none
  | int (n : Int)
  | str (s : String)
  | bool (b : Bool)
  | list (xs : List Value)
  | dict (kvs : List (String × Value))
  | ref (o : ObjId)
deriving Repr

/-- Behaviour of one attribute slot under `getattr`:
a plain (non-callable) value, a zero-argument callable whose call yields
`some v` or raises (`none`), a lookup raising `AttributeError`, or a
lookup raising any other exception. -/
inductive Getter where
  | val (v : Value)
  | method (r : Option Value)
  | raiseAttr
  | raiseOther
deriving Repr

/-- The native object graph: each object is a list of named attribute
slots.  Objects absent from the heap simply have no attributes. -/
abbrev Heap := ObjId → List (String × Getter)

/-- Attribute table of a value.  Only heap references carry the probed
attributes; primitive values have none of the names the converter probes
(`hasattr` is false on them). -/
def attrsOf (h : Heap) : Value → List (String × Getter)
  | .ref o => h o
  | _ => []

/-- Look up an attribute slot by name. -/
def lookupAttr (h : Heap) (v : Value) (name : String) : Option Getter :=
  (attrsOf h v).lookup name

/-- Python truthiness of a `Value` (`bool(v)`). -/
def truthy : Value → Bool
  | .none => false
  | .int n => n != 0
  | .str s => s != ""
  | .bool b => b
  | .list xs => !xs.isEmpty
  | .dict kvs => !kvs.isEmpty
  | .ref _ => true

/-- Is the value literally `None` (Python `v is None` / `v is not None`). -/
def isNoneV : Value → Bool
  | .none => true
  | _ => false

/-- Python `str(v)`.  Containers and raw objects are abstracted to fixed
tokens (Python would produce a `repr`/address there); no claim evaluates
`str()` on such values. -/
def pyStr : Value → String
  | .none => "None"
  | .int n => toString n
  | .str s => s
  | .bool b => if b then "True" else "False"
  | .list _ => "<list>"
  | .dict _ => "<dict>"
  | .ref _ => "<object>"

/-- Python `list(v)` (used by iteration and coercion): lists yield their
elements, strings their characters, dicts their keys; every other value
raises `TypeError` (`none`). -/
def iterToList : Value → Option (List Value)
  | .list xs => some xs
  | .str s => some (s.data.map (fun c => Value.str (String.singleton c)))
  | .dict kvs => some (kvs.map (fun kv => Value.str kv.1))
  | _ => Option.none

/-- Python `str.strip()` (default whitespace strip), character-list based
so that it reduces in the kernel. -/
def pyStrip (s : String) : String :=
  String.mk (((s.data.dropWhile Char.isWhitespace).reverse.dropWhile
    Char.isWhitespace).reverse)

/-- Python `str.lower()` (ASCII approximation, adequate for the
claims' inputs). -/
def pyLower (s : String) : String :=
  String.mk (s.data.map Char.toLower)

/-- Python `hasattr(obj, name)`: `false` when the slot is absent or its
lookup raises `AttributeError`; raises (`.error`) when the lookup raises
any other exception; `true` otherwise. -/
def hasattrE (h : Heap) (v : Value) (name : String) : Except Unit Bool :=
  match lookupAttr h v name with
  | Option.none => .ok false
  | some .raiseAttr => .ok false
  | some .raiseOther => .error ()
  | some _ => .ok true

/-!
## Defensive Attribute Accessor — `_get_attribute_value` (lines 72–92)

```python
try:
    if hasattr(obj, attr_name):
        attr = getattr(obj, attr_name)
        if callable(attr):
            return attr()
        return attr
except:
    pass
return default
```

`getAttributeBody` is the semantics of the `try` body: `.error ()` when
something inside raises, `.ok none` when `hasattr` is false (control
falls through to `return default`), `.ok (some r)` when a value is
returned from inside the `try`.
-/

/-- Semantics of the `try` body of `_get_attribute_value`. -/
def getAttributeBody (h : Heap) (v : Value) (name : String) :
    Except Unit (Option Value) :=
  match lookupAttr h v name with
  | Option.none => .ok Option.none
  | some .raiseAttr => .ok Option.none
  | some .raiseOther => .error ()
  | some (.method Option.none) => .error ()
  | some (.method (some r)) => .ok (some r)
  | some (.val w) => .ok (some w)

/-- `_get_attribute_value(obj, attr_name, default)`: the bare `except`
catches every failure of the body and falls through to the default. -/
def getAttributeValue (h : Heap) (v : Value) (name : String)
    (default : Value) : Value :=
  match getAttributeBody h v name with
  | .error _ => default
  | .ok Option.none => default
  | .ok (some r) => r

/-- C7.  The Defensive Attribute Accessor never lets an exception
propagate (it is a total function of the `try`-body semantics): when the
member is absent, or its lookup raises (`AttributeError` or any other
exception), or the zero-argument invocation raises, the default is
returned unchanged; when the member is an invocable that returns `r`,
`r` is returned; when it is a plain member, its value is returned. -/
theorem c7_accessor_total (h : Heap) (v : Value) (name : String)
    (default : Value) :
    (∀ e, getAttributeBody h v name = .error e →
      getAttributeValue h v name default = default) ∧
    (getAttributeBody h v name = .ok Option.none →
      getAttributeValue h v name default = default) ∧
    (∀ r, getAttributeBody h v name = .ok (some r) →
      getAttributeValue h v name default = r) ∧
    (lookupAttr h v name = Option.none →
      getAttributeValue h v name default = default) ∧
    (lookupAttr h v name = some .raiseAttr →
      getAttributeValue h v name default = default) ∧
    (lookupAttr h v name = some .raiseOther →
      getAttributeValue h v name default = default) ∧
    (lookupAttr h v name = some (.method Option.none) →
      getAttributeValue h v name default = default) ∧
    (∀ r, lookupAttr h v name = some (.method (some r)) →
      getAttributeValue h v name default = r) ∧
    (∀ w, lookupAttr h v name = some (.val w) →
      getAttributeValue h v name default = w) := by
  refine ⟨?_, ?_, ?_, ?_, ?_, ?_, ?_, ?_, ?_⟩ <;> intros <;>
    simp_all [getAttributeValue, getAttributeBody]

/-- Concrete exercise of `c7_accessor_total`: a heap whose object `0`
has a plain attribute, a raising callable, and a raising lookup; the
accessor returns the value, the default, and the default respectively. -/
def c7Heap : Heap := fun o =>
  if o = 0 then
    [("plain", Getter.val (.str "v")),
     ("boom", Getter.method Option.none),
     ("prop", Getter.raiseOther)]
  else []

/-- Witness for C7 at a concrete heap. -/
theorem c7_accessor_total_witness :
    getAttributeValue c7Heap (.ref 0) "plain" (.str "d") = .str "v" ∧
    getAttributeValue c7Heap (.ref 0) "boom" (.str "d") = .str "d" ∧
    getAttributeValue c7Heap (.ref 0) "prop" (.str "d") = .str "d" ∧
    getAttributeValue c7Heap (.ref 0) "missing" (.str "d") = .str "d" := by
  refine ⟨?_, ?_, ?_, ?_⟩
  · exact (c7_accessor_total c7Heap (.ref 0) "plain" (.str "d")).2.2.2.2.2.2.2.2
      (.str "v") rfl
  · exact (c7_accessor_total c7Heap (.ref 0) "boom" (.str "d")).2.2.2.2.2.2.1 rfl
  · exact (c7_accessor_total c7Heap (.ref 0) "prop" (.str "d")).2.2.2.2.2.1 rfl
  · exact (c7_accessor_total c7Heap (.ref 0) "missing" (.str "d")).2.2.2.1 rfl

/-!
## Collection Normalizer — `_get_shapes_from_object` (lines 39–70)

```python
shapes = []
for attr_name in ['shapes', 'child_shapes', 'sub_shapes']:
    if hasattr(obj, attr_name):
        attr = getattr(obj, attr_name)
        if callable(attr):
            try:
                result = attr()
                if result:
                    shapes.extend(result if isinstance(result, list) else [result])
            except:
                pass
        elif attr is not None:
            try:
                shapes.extend(attr if isinstance(attr, list) else list(attr))
            except:
                pass
return shapes
```

The `hasattr` call and the bare `getattr` sit outside any `try`, so a
slot whose lookup raises a non-`AttributeError` exception propagates out
of the whole function (`.error`).  Failures of the call or of the
`extend` are swallowed per candidate.
-/

/-- One candidate name of the Collection Normalizer's probe loop. -/
def probeCandidate (h : Heap) (v : Value) (name : String)
    (acc : List Value) : Except Unit (List Value) :=
  match lookupAttr h v name with
  | Option.none => .ok acc
  | some .raiseAttr => .ok acc
  | some .raiseOther => .error ()
  | some (.method Option.none) => .ok acc
  | some (.method (some r)) =>
      if truthy r then
        match r with
        | .list xs => .ok (acc ++ xs)
        | _ => .ok (acc ++ [r])
      else .ok acc
  | some (.val w) =>
      match w with
      | .none => .ok acc
      | .list xs => .ok (acc ++ xs)
      | _ =>
          match iterToList w with
          | some xs => .ok (acc ++ xs)
          | Option.none => .ok acc

/-- `_get_shapes_from_object(obj)`: probe the three candidate names in
declaration order, merging results; `.error` when a lookup raises a
non-`AttributeError` exception (which propagates to the caller). -/
def getShapesFromObject (h : Heap) (v : Value) : Except Unit (List Value) := do
  let a1 ← probeCandidate h v "shapes" []
  let a2 ← probeCandidate h v "child_shapes" a1
  probeCandidate h v "sub_shapes" a2

/-!
## Connection Extractor — `_extract_connections` (lines 94–141)

The whole body sits in one `try` with a bare `except: pass` followed by
`return connections`, so a failure mid-way returns the pairs appended
*before* the failure.  Strategy A appends after its scan loop, so any
failure inside Strategy A (the `hasattr` lookup raising, or iterating a
non-iterable `connects`) happens before any append.  Strategy B's only
raise sites are the two `hasattr` lookups.
-/

/-- Loop body of Strategy A's scan (lines 114–121): each endpoint's
tracked identifier is overwritten whenever its sub-object is truthy —
possibly overwriting an earlier identifier with `None`. -/
def connectFold (h : Heap) (st : Value × Value) (connect : Value) :
    Value × Value :=
  let from_shape := getAttributeValue h connect "from_shape" .none
  let to_shape := getAttributeValue h connect "to_shape" .none
  let f := if truthy from_shape then getAttributeValue h from_shape "ID" .none
           else st.1
  let t := if truthy to_shape then getAttributeValue h to_shape "ID" .none
           else st.2
  (f, t)

/-- Strategy A ("connector join list", lines 107–124): `.error` when the
`hasattr` lookup raises or `connects` is truthy but not iterable; at most
one pair, appended only when both tracked identifiers end up truthy. -/
def strategyAE (h : Heap) (shape : Value) :
    Except Unit (List (String × String)) :=
  match hasattrE h shape "connects" with
  | .error e => .error e
  | .ok false => .ok []
  | .ok true =>
      let connects := getAttributeValue h shape "connects" (.list [])
      if truthy connects then
        match iterToList connects with
        | Option.none => .error ()
        | some entries =>
            let ft := entries.foldl (connectFold h) (Value.none, Value.none)
            if truthy ft.1 && truthy ft.2 then
              .ok [(pyStr ft.1, pyStr ft.2)]
            else .ok []
      else .ok []

/-- Strategy B ("1-dimensional shape heuristic", lines 127–137):
`.error` when either `hasattr` lookup raises (Python's `or`
short-circuits, so `OneD` is only probed when `one_d` is absent). -/
def strategyBE (h : Heap) (shape : Value) :
    Except Unit (List (String × String)) :=
  match hasattrE h shape "one_d" with
  | .error e => .error e
  | .ok b1 =>
      match (if b1 then Except.ok true else hasattrE h shape "OneD") with
      | .error e => .error e
      | .ok false => .ok []
      | .ok true =>
          let begin_shape := getAttributeValue h shape "begin_shape" .none
          let end_shape := getAttributeValue h shape "end_shape" .none
          if truthy begin_shape && truthy end_shape then
            let f := getAttributeValue h begin_shape "ID" .none
            let t := getAttributeValue h end_shape "ID" .none
            if truthy f && truthy t then .ok [(pyStr f, pyStr t)]
            else .ok []
          else .ok []

/-- `_extract_connections(shape)`: Strategy A then Strategy B inside one
`try`; the bare `except: pass` returns whatever was accumulated before a
failure (nothing when Strategy A fails, Strategy A's pairs when Strategy
B fails). -/
def extractConnections (h : Heap) (shape : Value) : List (String × String) :=
  match strategyAE h shape with
  | .error _ => []
  | .ok as =>
      match strategyBE h shape with
      | .error _ => as
      | .ok bs => as ++ bs

/-!
## Media Prober — `_extract_image_from_shape` (lines 201–271) and
`_extract_media_from_page` (lines 143–199)
-/

/-- One per-shape probe step: `hasattr(obj, name)` then, when present,
the accessor; yields the payload when truthy.  `.error` when the
`hasattr` lookup raises (caught by the probe's `except Exception`). -/
def probeImageAttr (h : Heap) (obj : Value) (name : String) :
    Except Unit (Option Value) :=
  match hasattrE h obj name with
  | .error e => .error e
  | .ok false => .ok Option.none
  | .ok true =>
      let v := getAttributeValue h obj name .none
      .ok (if truthy v then some v else Option.none)

/-- The `try` body of `_extract_image_from_shape`: methods 1–5 in fixed
order, stopping at the first truthy payload.  Method 6 (the `cells`
scan) only logs and then falls through to `return None`, and its own
failures are caught by the same `except Exception`, so it cannot affect
the result and is elided. -/
def extractImageBody (h : Heap) (shape : Value) :
    Except Unit (Option Value) := do
  if let some v ← probeImageAttr h shape "image_data" then
    return (some v)
  if let some v ← probeImageAttr h shape "image" then
    return (some v)
  if let some v ← probeImageAttr h shape "file" then
    return (some v)
  match ← hasattrE h shape "master_shape" with
  | false => pure ()
  | true =>
      let master := getAttributeValue h shape "master_shape" .none
      if truthy master then
        if let some v ← probeImageAttr h master "image_data" then
          return (some v)
  match ← hasattrE h shape "fill" with
  | false => pure ()
  | true =>
      let fill := getAttributeValue h shape "fill" .none
      if truthy fill then
        match ← hasattrE h fill "image" with
        | false => pure ()
        | true =>
            let image := getAttributeValue h fill "image" .none
            if truthy image then
              return (some image)
  return Option.none

/-- `_extract_image_from_shape(shape)`: `except Exception` turns every
failure into `None`. -/
def extractImageFromShape (h : Heap) (shape : Value) : Option Value :=
  match extractImageBody h shape with
  | .error _ => Option.none
  | .ok r => r

/-- One discovered page-level media item. -/
structure MediaItem where
  index : Value
  data : Value
  source : String
deriving Repr

/-- Enumerate a list with indices starting at `i` (Python `enumerate`). -/
def enumFrom {α : Type} (i : Nat) : List α → List (Nat × α)
  | [] => []
  | x :: rest => (i, x) :: enumFrom (i + 1) rest

/-- `_extract_media_from_page(page)` (lines 143–199): probe the `media`
attribute (list → enumerate, dict → items), then the `images` attribute
(list only); `except Exception` returns whatever was accumulated before
a failure.  The trailing `filename` probe only logs and adds nothing. -/
def extractMediaFromPage (h : Heap) (page : Value) : List MediaItem :=
  let stage1 : Except Unit (List MediaItem) :=
    match hasattrE h page "media" with
    | .error e => .error e
    | .ok false => .ok []
    | .ok true =>
        let media := getAttributeValue h page "media" .none
        if truthy media then
          match media with
          | .list xs =>
              .ok ((enumFrom 0 xs).map fun ix =>
                ⟨.int (Int.ofNat ix.1), ix.2, "page.media"⟩)
          | .dict kvs =>
              .ok (kvs.map fun kv => ⟨.str kv.1, kv.2, "page.media"⟩)
          | _ => .ok []
        else .ok []
  match stage1 with
  | .error _ => []
  | .ok acc =>
      match hasattrE h page "images" with
      | .error _ => acc
      | .ok false => acc
      | .ok true =>
          let images := getAttributeValue h page "images" .none
          if truthy images then
            match images with
            | .list xs =>
                acc ++ (enumFrom 0 xs).map fun ix =>
                  ⟨.int (Int.ofNat ix.1), ix.2, "page.images"⟩
            | _ => acc
          else acc

/-!
## Shape Normalizer — `_extract_shape_info` (lines 273–334)
-/

/-- The canonical shape record built by `_extract_shape_info`. -/
structure ShapeRecord where
  text : String
  name : String
  id : Value
  type : String
  sub_shapes : List ShapeRecord
  connections : List (String × String)
  has_image : Bool
deriving Repr

/-- Step 1 (line 295): `str(accessor(shape, 'text', '')).strip()`. -/
def stepText (h : Heap) (shape : Value) : String :=
  pyStrip (pyStr (getAttributeValue h shape "text" (.str "")))

/-- Step 2 (line 298): `str(accessor(shape, 'name', ''))`. -/
def stepName (h : Heap) (shape : Value) : String :=
  pyStr (getAttributeValue h shape "name" (.str ""))

/-- Step 3 (line 301): `accessor(shape, 'ID') or accessor(shape, 'id')`
(Python `or`: the second accessor runs only when the first value is
falsy). -/
def stepId (h : Heap) (shape : Value) : Value :=
  let a := getAttributeValue h shape "ID" .none
  if truthy a then a else getAttributeValue h shape "id" .none

/-- Step 4 (lines 304–310): master-shape name, defensively; nothing in
the guarded block can raise in this model, so the `try` is inert. -/
def stepType (h : Heap) (shape : Value) : String :=
  let master := getAttributeValue h shape "master_shape" .none
  if truthy master then
    let master_name := getAttributeValue h master "name" .none
    if truthy master_name then pyStr master_name else ""
  else ""

/-- Step 6 (lines 316–319): `has_image` is set iff the probe returned a
truthy payload (the probe only ever returns truthy payloads). -/
def stepHasImage (h : Heap) (shape : Value) : Bool :=
  match extractImageFromShape h shape with
  | some v => truthy v
  | Option.none => false

/-- The retention predicate of lines 328–329: Python truthiness of each
field of the candidate sub-record. -/
def retainShape (r : ShapeRecord) : Bool :=
  r.text != "" || r.name != "" || !r.sub_shapes.isEmpty ||
    r.has_image || truthy r.id

/-- Assemble a `ShapeRecord` from the seven steps, given the already
computed `sub_shapes` (steps 1–6 do not depend on the depth). -/
def shapeRecordOf (h : Heap) (shape : Value) (subs : List ShapeRecord) :
    ShapeRecord :=
  { text := stepText h shape
    name := stepName h shape
    id := stepId h shape
    type := stepType h shape
    sub_shapes := subs
    connections := extractConnections h shape
    has_image := stepHasImage h shape }

/-- `_extract_shape_info`, with the remaining recursion budget
`fuel = 5 - depth` as the structural argument (the source guard
`depth < 5` is exactly `fuel ≠ 0`; children recurse at `depth + 1`,
i.e. at `fuel - 1`).  At fuel 0 the collection normalizer is not even
invoked, exactly as in the source.  The loop of lines 325–330 appends
the recursively normalized child precisely when `retainShape` holds,
i.e. it builds `filter retainShape` of the mapped children; a failure
of `_get_shapes_from_object` is caught by the `try` of lines 323–332
and leaves `sub_shapes` empty. -/
def extractShapeInfoFuel (h : Heap) : Nat → Value → ShapeRecord
  | 0, shape => shapeRecordOf h shape []
  | fuel + 1, shape =>
      shapeRecordOf h shape
        (match getShapesFromObject h shape with
         | .error _ => []
         | .ok subs =>
             (subs.map (fun s => extractShapeInfoFuel h fuel s)).filter
               retainShape)

/-- `_extract_shape_info(shape, depth)`. -/
def extractShapeInfo (h : Heap) (shape : Value) (depth : Nat) : ShapeRecord :=
  extractShapeInfoFuel h (5 - depth) shape

/-- Unfolding of `_extract_shape_info` in terms of the source's `depth`
parameter: the guard `depth < 5` of line 322 is `5 - depth ≠ 0`, and the
children recurse at `depth + 1`. -/
theorem extractShapeInfo_unfold (h : Heap) (s : Value) (d : Nat) :
    extractShapeInfo h s d =
      shapeRecordOf h s
        (if d < 5 then
          match getShapesFromObject h s with
          | .error _ => []
          | .ok subs =>
              (subs.map (fun c => extractShapeInfo h c (d + 1))).filter
                retainShape
        else []) := by
  by_cases hd : d < 5
  · have h5 : 5 - d = (5 - (d + 1)) + 1 := by omega
    rw [extractShapeInfo, h5]
    simp only [extractShapeInfoFuel, if_pos hd]
    rfl
  · have h0 : 5 - d = 0 := by omega
    rw [extractShapeInfo, h0]
    simp only [extractShapeInfoFuel, if_neg hd]

/-- C1.  A shape normalized at depth 5 has an empty `sub_shapes`
sequence no matter what the Collection Normalizer would yield for it
(the normalizer is not even consulted at depth 5); at every depth
`d < 5`, `sub_shapes` is obtained by normalizing each child produced by
the Collection Normalizer at depth `d + 1` and keeping only the children
satisfying the retention predicate (empty when the Collection Normalizer
fails).  `extractShapeInfo` is a total Lean function over heaps that may
contain cyclic child references, so recursion terminates without error
even over cyclic child graphs. -/
theorem c1_depth_bound (h : Heap) (s : Value) :
    (extractShapeInfo h s 5).sub_shapes = [] ∧
    ∀ d, d < 5 →
      (extractShapeInfo h s d).sub_shapes =
        (match getShapesFromObject h s with
         | .error _ => []
         | .ok subs =>
             (subs.map (fun c => extractShapeInfo h c (d + 1))).filter
               retainShape) := by
  constructor
  · rw [extractShapeInfo_unfold]
    simp [shapeRecordOf]
  · intro d hd
    rw [extractShapeInfo_unfold]
    simp [shapeRecordOf, if_pos hd]

/-- A cyclic native graph: object 0's `shapes` attribute is a list
containing object 0 itself. -/
def c1Heap : Heap := fun o =>
  if o = 0 then [("shapes", Getter.val (.list [.ref 0]))] else []

/-- Witness for C1: on the cyclic graph `c1Heap`, normalization at
depth 5 and at depth 0 both terminate with concrete (empty) `sub_shapes`;
the depth-0 case instantiates the `d < 5` branch of `c1_depth_bound`. -/
theorem c1_depth_bound_witness :
    (extractShapeInfo c1Heap (.ref 0) 5).sub_shapes = [] ∧
    (0 : Nat) < 5 ∧
    (extractShapeInfo c1Heap (.ref 0) 0).sub_shapes = [] := by
  refine ⟨(c1_depth_bound c1Heap (.ref 0)).1, by norm_num, ?_⟩
  rw [(c1_depth_bound c1Heap (.ref 0)).2 0 (by norm_num)]
  rfl

/-!
## Page Aggregator — `_extract_page_data` (lines 336–388)
-/

/-- The canonical page record. -/
structure PageData where
  name : String
  shapes : List ShapeRecord
  connections : List (String × String)
  images_count : Nat
  page_media : List MediaItem
deriving Repr

/-- `_extract_page_data(page)`.  The `shapes_to_process` lookup of line
364 sits outside any `try`, so a raising lookup propagates (`.error`,
caught per page by the caller).  Inside the loop every shape's record is
ALWAYS appended (line 374); the per-shape `try` is inert because
`_extract_shape_info` is total in this model.  `images_count` adds the
page-media count (the `if page_media:` guard of line 358 only skips
adding zero) and one per top-level record with `has_image`; the per-shape
connection lists are concatenated in order (the `if` of line 377 only
skips extending by an empty list). -/
def extractPageDataE (h : Heap) (page : Value) : Except Unit PageData :=
  let page_name := getAttributeValue h page "name" (.str "Unnamed Page")
  let name := if truthy page_name then pyStr page_name else "Unnamed Page"
  let page_media := extractMediaFromPage h page
  match getShapesFromObject h page with
  | .error e => .error e
  | .ok shapes_to_process =>
      let infos := shapes_to_process.map (fun s => extractShapeInfo h s 0)
      .ok
        { name := name
          shapes := infos
          connections := (infos.map (fun i => i.connections)).flatten
          images_count :=
            page_media.length + infos.countP (fun i => i.has_image)
          page_media := page_media }

/-- Heap for the C2 counterexample: a top-level shape (object 0) whose
single child (object 1) carries a present `id` attribute holding the
integer 0 and nothing else. -/
def c2Heap : Heap := fun o =>
  if o = 0 then [("shapes", Getter.val (.list [.ref 1]))]
  else if o = 1 then [("id", Getter.val (.int 0))]
  else []

/-- Counterexample to C2 as stated: the child's normalized record has a
NON-ABSENT id (the integer 0, which is not `None`) and is nevertheless
absent from its parent's `sub_shapes` — retention tests Python
truthiness, and `0` is falsy. -/
theorem c2_counterexample :
    (extractShapeInfo c2Heap (.ref 1) 1).id = Value.int 0 ∧
    Value.int 0 ≠ Value.none ∧
    (extractShapeInfo c2Heap (.ref 0) 0).sub_shapes = [] := by
  refine ⟨by rfl, ?_, by rfl⟩
  intro hv
  cases hv

/-- C2, amended.  A child record appears in its parent's `sub_shapes`
iff it is the normalization of one of the Collection Normalizer's
children and carries TRUTHY content: non-empty text, non-empty name,
non-empty `sub_shapes`, `has_image`, or a truthy id (a non-absent id
that is the integer 0 or the empty string does not count); every
top-level shape on a page is kept in the page's `shapes` sequence even
when it has none of these. -/
theorem c2_retention_amended (h : Heap) :
    (∀ s d subs, d < 5 → getShapesFromObject h s = .ok subs →
      ∀ r, r ∈ (extractShapeInfo h s d).sub_shapes ↔
        (r ∈ subs.map (fun c => extractShapeInfo h c (d + 1)) ∧
         retainShape r = true)) ∧
    (∀ page pd, extractPageDataE h page = .ok pd →
      ∃ tops, getShapesFromObject h page = .ok tops ∧
        pd.shapes = tops.map (fun s => extractShapeInfo h s 0)) := by
  constructor
  · intro s d subs hd hsubs r
    rw [extractShapeInfo_unfold h s d]
    simp only [shapeRecordOf, if_pos hd, hsubs]
    simp [List.mem_filter]
  · intro page pd hpd
    unfold extractPageDataE at hpd
    revert hpd
    cases hg : getShapesFromObject h page with
    | error e => intro hpd; cases hpd
    | ok tops =>
        intro hpd
        refine ⟨tops, rfl, ?_⟩
        cases hpd
        rfl

/-- Heap for the C2 witness: a page (object 10) with one fully empty
top-level shape (object 11). -/
def c2WHeap : Heap := fun o =>
  if o = 10 then [("shapes", Getter.val (.list [.ref 11]))] else []

/-- Witness for C2 (amended): instantiating both parts at `c2WHeap` —
a fully empty child is pruned from `sub_shapes` at depth 0, yet the same
empty shape survives as a top-level entry of the page's `shapes`. -/
theorem c2_retention_amended_witness :
    (extractShapeInfo c2WHeap (.ref 10) 0).sub_shapes = [] ∧
    ∃ pd, extractPageDataE c2WHeap (.ref 10) = .ok pd ∧
      pd.shapes = [extractShapeInfo c2WHeap (.ref 11) 0] := by
  constructor
  · have hmem := (c2_retention_amended c2WHeap).1 (.ref 10) 0 [.ref 11]
      (by norm_num) (by rfl)
    rcases hsub : (extractShapeInfo c2WHeap (.ref 10) 0).sub_shapes with
      _ | ⟨r, rest⟩
    · rfl
    · exfalso
      have hr := (hmem r).mp (by rw [hsub]; exact List.mem_cons_self r rest)
      have : retainShape r = true := hr.2
      have hrv : r = extractShapeInfo c2WHeap (.ref 11) 1 := by
        simpa using hr.1
      rw [hrv] at this
      revert this
      decide
  · obtain ⟨tops, htops, hshapes⟩ :=
      (c2_retention_amended c2WHeap).2 (.ref 10)
        { name := "Unnamed Page"
          shapes := [extractShapeInfo c2WHeap (.ref 11) 0]
          connections := []
          images_count := 0
          page_media := [] } (by rfl)
    exact ⟨_, by rfl, by rfl⟩

/-- C5.  For every successfully aggregated page, `images_count` equals
the number of page-level media items plus the number of top-level shape
records whose `has_image` flag is true; images carried only by
sub-shapes do not increment the counter (only the top-level records are
counted). -/
theorem c5_images_count (h : Heap) (page : Value) (pd : PageData)
    (hpd : extractPageDataE h page = .ok pd) :
    pd.images_count =
      pd.page_media.length + pd.shapes.countP (fun r => r.has_image) := by
  unfold extractPageDataE at hpd
  revert hpd
  cases getShapesFromObject h page with
  | error e => intro hpd; cases hpd
  | ok tops =>
      intro hpd
      cases hpd
      rfl

/-- Heap for the C5 witness: a page (object 20) with one page-level
media item and two top-level shapes, one bearing an image, the other's
image sitting only in a sub-shape. -/
def c5Heap : Heap := fun o =>
  if o = 20 then
    [("media", Getter.val (.list [.str "payload"])),
     ("shapes", Getter.val (.list [.ref 21, .ref 22]))]
  else if o = 21 then [("image_data", Getter.val (.str "img"))]
  else if o = 22 then [("shapes", Getter.val (.list [.ref 23]))]
  else if o = 23 then [("image_data", Getter.val (.str "subimg"))]
  else []

/-- Witness for C5: the page has one media item and one image-bearing
top-level shape, so `images_count = 2`; the sub-shape image of the
second shape is reflected in its child's `has_image` but not counted. -/
theorem c5_images_count_witness :
    ∃ pd, extractPageDataE c5Heap (.ref 20) = .ok pd ∧
      pd.images_count =
        pd.page_media.length + pd.shapes.countP (fun r => r.has_image) ∧
      pd.images_count = 2 ∧ pd.page_media.length = 1 := by
  refine ⟨_, rfl, c5_images_count c5Heap (.ref 20) _ rfl, by rfl, by rfl⟩

/-- Heap for the C6 counterexample: object 40 carries a well-formed
`connects` entry (endpoint IDs "1" and "2") and a `one_d` attribute
whose lookup raises a non-`AttributeError` exception, so the
connections step fails mid-way, after Strategy A's append. -/
def c6CHeap : Heap := fun o =>
  if o = 40 then
    [("connects", Getter.val (.list [.ref 41])),
     ("one_d", Getter.raiseOther)]
  else if o = 41 then
    [("from_shape", Getter.val (.ref 42)),
     ("to_shape", Getter.val (.ref 43))]
  else if o = 42 then [("ID", Getter.val (.str "1"))]
  else if o = 43 then [("ID", Getter.val (.str "2"))]
  else []

/-- Counterexample to C6 as stated: a failure inside the connections
step (Strategy B's `hasattr` lookup raising, caught by the extractor's
bare `except`) does NOT leave the record's `connections` field at its
zero-value `[]` — the pair Strategy A had already appended remains in
the produced record. -/
theorem c6_counterexample :
    strategyBE c6CHeap (.ref 40) = .error () ∧
    (extractShapeInfo c6CHeap (.ref 40) 0).connections = [("1", "2")] ∧
    (extractShapeInfo c6CHeap (.ref 40) 0).connections ≠ [] := by
  refine ⟨by rfl, by rfl, by decide⟩

/-- C6, amended.  Each of the seven normalization steps of
`_extract_shape_info` is independently defensive in the sense that no
failure in any step aborts the whole record: every field is the value
of a total per-step function of the shape alone, so a failure in one
step cannot affect another field.  A failing image probe leaves
`has_image` at its zero-value `false`, and a failing Collection
Normalizer (or the depth bound) leaves `sub_shapes` at its zero-value
`[]`; a failure inside the connections step, however, is caught inside
the Connection Extractor itself and leaves `connections` holding the
pairs accumulated before the failure — its zero-value `[]` exactly when
the failure precedes any append (as for every failure inside
Strategy A), but Strategy A's already-appended pair when only Strategy B
fails.  Steps 1–4 (text, name, id, type) cannot fail in this model. -/
theorem c6_defensive_steps_amended (h : Heap) (s : Value) (d : Nat) :
    (extractShapeInfo h s d).text = stepText h s ∧
    (extractShapeInfo h s d).name = stepName h s ∧
    (extractShapeInfo h s d).id = stepId h s ∧
    (extractShapeInfo h s d).type = stepType h s ∧
    (extractShapeInfo h s d).connections = extractConnections h s ∧
    (extractShapeInfo h s d).has_image = stepHasImage h s ∧
    (∀ e, extractImageBody h s = .error e →
      (extractShapeInfo h s d).has_image = false) ∧
    (∀ e, getShapesFromObject h s = .error e →
      (extractShapeInfo h s d).sub_shapes = []) ∧
    (∀ e, strategyAE h s = .error e →
      (extractShapeInfo h s d).connections = []) ∧
    (∀ as e, strategyAE h s = .ok as → strategyBE h s = .error e →
      (extractShapeInfo h s d).connections = as) := by
  rw [extractShapeInfo_unfold]
  refine ⟨rfl, rfl, rfl, rfl, rfl, rfl, ?_, ?_, ?_, ?_⟩
  · intro e he
    simp [shapeRecordOf, stepHasImage, extractImageFromShape, he]
  · intro e he
    by_cases hd : d < 5 <;> simp [shapeRecordOf, he, hd]
  · intro e he
    simp [shapeRecordOf, extractConnections, he]
  · intro as e ha hb
    simp [shapeRecordOf, extractConnections, ha, hb]

/-- Heap for the C6 witness: object 30's `image_data` and `shapes`
lookups raise non-`AttributeError` exceptions, its `connects` list
holds one complete entry while the `one_d` lookup raises, and its
ordinary fields are readable. -/
def c6Heap : Heap := fun o =>
  if o = 30 then
    [("text", Getter.val (.str " hello ")),
     ("name", Getter.val (.str "N")),
     ("image_data", Getter.raiseOther),
     ("shapes", Getter.raiseOther),
     ("connects", Getter.val (.list [.ref 31])),
     ("one_d", Getter.raiseOther)]
  else if o = 31 then
    [("from_shape", Getter.val (.ref 32)),
     ("to_shape", Getter.val (.ref 33))]
  else if o = 32 then [("ID", Getter.val (.str "5"))]
  else if o = 33 then [("ID", Getter.val (.str "6"))]
  else []

/-- Witness for C6 (amended): on `c6Heap` the image probe and the
Collection Normalizer fail and degrade to their zero-values, the
connections step fails after Strategy A's append and keeps that pair,
and the remaining steps still populate the record. -/
theorem c6_defensive_steps_amended_witness :
    (extractShapeInfo c6Heap (.ref 30) 0).has_image = false ∧
    (extractShapeInfo c6Heap (.ref 30) 0).sub_shapes = [] ∧
    (extractShapeInfo c6Heap (.ref 30) 0).connections = [("5", "6")] ∧
    (extractShapeInfo c6Heap (.ref 30) 0).text = "hello" ∧
    (extractShapeInfo c6Heap (.ref 30) 0).name = "N" := by
  have h6 := c6_defensive_steps_amended c6Heap (.ref 30) 0
  exact ⟨h6.2.2.2.2.2.2.1 () rfl, h6.2.2.2.2.2.2.2.1 () rfl,
    h6.2.2.2.2.2.2.2.2.2 [("5", "6")] () (by rfl) (by rfl),
    by rfl, by rfl⟩

/-- Heap for the C3 counterexample: object 0 has a well-formed
`connects` list (one entry whose endpoints carry IDs "1" and "2") AND a
`one_d` attribute whose lookup raises a non-`AttributeError` exception.
Python's `hasattr(shape, 'one_d')` propagates that exception; the bare
`except: pass` of `_extract_connections` catches it and the function
returns the pair Strategy A had already appended. -/
def c3Heap : Heap := fun o =>
  if o = 0 then
    [("connects", Getter.val (.list [.ref 1])),
     ("one_d", Getter.raiseOther)]
  else if o = 1 then
    [("from_shape", Getter.val (.ref 2)),
     ("to_shape", Getter.val (.ref 3))]
  else if o = 2 then [("ID", Getter.val (.str "1"))]
  else if o = 3 then [("ID", Getter.val (.str "2"))]
  else []

/-- Counterexample to C3 as stated: extraction fails (Strategy B's
`hasattr` lookup raises) yet the result is NOT empty — the pair appended
by Strategy A before the failure is returned. -/
theorem c3_counterexample :
    strategyBE c3Heap (.ref 0) = .error () ∧
    extractConnections c3Heap (.ref 0) = [("1", "2")] ∧
    extractConnections c3Heap (.ref 0) ≠ [] := by
  refine ⟨by rfl, by rfl, ?_⟩
  intro hv
  simp [extractConnections, strategyAE, strategyBE] at hv
  revert hv
  decide

/-- C3, amended.  Strategy A scans every entry of the connects-like
collection keeping, per endpoint, the most recently read identifier
(each endpoint is overwritten whenever its sub-object is truthy —
possibly with an absent identifier), and appends
`(str(from), str(to))` exactly when both tracked identifiers end up
truthy; Strategy A's pair (if any) precedes Strategy B's pair (if any);
a failure anywhere in extraction is caught at the top level and yields
the pairs accumulated before the failure — which is the empty result
precisely when the failure precedes any append (in particular for every
failure inside Strategy A). -/
theorem c3_connection_extractor_amended (h : Heap) (s : Value) :
    (∀ e, strategyAE h s = .error e → extractConnections h s = []) ∧
    (∀ as e, strategyAE h s = .ok as → strategyBE h s = .error e →
      extractConnections h s = as) ∧
    (∀ as bs, strategyAE h s = .ok as → strategyBE h s = .ok bs →
      extractConnections h s = as ++ bs) ∧
    (∀ entries,
      lookupAttr h s "connects" ≠ Option.none →
      lookupAttr h s "connects" ≠ some Getter.raiseAttr →
      lookupAttr h s "connects" ≠ some Getter.raiseOther →
      truthy (getAttributeValue h s "connects" (.list [])) = true →
      iterToList (getAttributeValue h s "connects" (.list [])) =
        some entries →
      strategyAE h s =
        (let ft := entries.foldl (connectFold h) (Value.none, Value.none)
         if truthy ft.1 && truthy ft.2 then
           Except.ok [(pyStr ft.1, pyStr ft.2)]
         else Except.ok [])) ∧
    (∀ (st : Value × Value) (es : List Value) (c : Value),
      truthy (getAttributeValue h c "from_shape" .none) = true →
      truthy (getAttributeValue h c "to_shape" .none) = true →
      (es ++ [c]).foldl (connectFold h) st =
        (getAttributeValue h
           (getAttributeValue h c "from_shape" .none) "ID" .none,
         getAttributeValue h
           (getAttributeValue h c "to_shape" .none) "ID" .none)) := by
  refine ⟨?_, ?_, ?_, ?_, ?_⟩
  · intro e he
    simp [extractConnections, he]
  · intro as e ha hb
    simp [extractConnections, ha, hb]
  · intro as bs ha hb
    simp [extractConnections, ha, hb]
  · intro entries h1 h2 h3 ht hit
    have hhas : hasattrE h s "connects" = .ok true := by
      unfold hasattrE
      rcases hg : lookupAttr h s "connects" with _ | g
      · exact absurd hg h1
      · cases g <;> simp_all
    simp [strategyAE, hhas, ht, hit]
  · intro st es c hf ht
    simp [List.foldl_append, connectFold, hf, ht]

/-- Heap for the C3 witness: two complete connect entries (so the scan
demonstrably keeps only the last), plus a 1-D marker with begin/end
endpoints, so both strategies fire. -/
def c3WHeap : Heap := fun o =>
  if o = 0 then
    [("connects", Getter.val (.list [.ref 1, .ref 4])),
     ("one_d", Getter.val (.bool true)),
     ("begin_shape", Getter.val (.ref 7)),
     ("end_shape", Getter.val (.ref 9))]
  else if o = 1 then
    [("from_shape", Getter.val (.ref 2)), ("to_shape", Getter.val (.ref 3))]
  else if o = 2 then [("ID", Getter.val (.str "9"))]
  else if o = 3 then [("ID", Getter.val (.str "8"))]
  else if o = 4 then
    [("from_shape", Getter.val (.ref 5)), ("to_shape", Getter.val (.ref 6))]
  else if o = 5 then [("ID", Getter.val (.str "3"))]
  else if o = 6 then [("ID", Getter.val (.str "4"))]
  else if o = 7 then [("ID", Getter.val (.str "7"))]
  else if o = 9 then [("ID", Getter.val (.str "8"))]
  else []

/-- Witness for C3 (amended): with two complete connect entries the
first entry's pair ("9","8") is overwritten by the second entry's pair
("3","4"), which is the only pair Strategy A appends, and it precedes
Strategy B's pair ("7","8"). -/
theorem c3_connection_extractor_amended_witness :
    extractConnections c3WHeap (.ref 0) = [("3", "4"), ("7", "8")] :=
  (c3_connection_extractor_amended c3WHeap (.ref 0)).2.2.1
    [("3", "4")] [("7", "8")] (by rfl) (by rfl)

/-!
## Identifier sanitization — `_sanitize_mermaid_id` (lines 390–407)

```python
if text:
    sanitized = ''.join(c if c.isalnum() else '_' for c in text)
    return sanitized[:50]
elif shape_id:
    return f"shape_{shape_id}"
return "unknown"
```

`c.isalnum()` is modelled by `Char.isAlphanum` (ASCII approximation of
Python's Unicode-aware test; adequate for every input the claims
evaluate).  Joining the mapped characters and then slicing to 50 is the
same list as mapping the first 50 characters.  Both `elif shape_id:` and
`if text:` are Python truthiness tests.
-/

/-- `_sanitize_mermaid_id(text, shape_id)` (`shape_id` defaults to
`None`, modelled by passing `Value.none`). -/
def sanitizeMermaidId (text : String) (shape_id : Value) : String :=
  if text != "" then
    String.mk ((text.data.map (fun c => if c.isAlphanum then c else '_')).take 50)
  else if truthy shape_id then "shape_" ++ pyStr shape_id
  else "unknown"

/-- Counterexample to C4 as stated: sanitizing empty text with the GIVEN
(non-absent) identifier `0` yields `"unknown"`, not `"shape_0"` — the
fallback tests Python truthiness of the identifier, and `0` is falsy. -/
theorem c4_counterexample :
    sanitizeMermaidId "" (.int 0) = "unknown" ∧
    Value.int 0 ≠ Value.none ∧
    sanitizeMermaidId "" (.int 0) ≠ "shape_" ++ pyStr (.int 0) := by
  refine ⟨by rfl, ?_, by decide⟩
  intro hv
  cases hv

/-- C4, amended.  For non-empty text the result is the first 50
characters of the text with each character kept if alphanumeric and
otherwise replaced by exactly one underscore (positionally — no
collapsing), hence of length at most 50 and made only of alphanumerics
and underscores.  For empty text the result is `shape_<identifier>`
exactly when the identifier is TRUTHY (given and neither zero nor
empty), and the literal `unknown` otherwise. -/
theorem c4_sanitize_amended (text : String) (sid : Value) :
    (text ≠ "" →
      (sanitizeMermaidId text sid).data =
        (text.data.take 50).map (fun c => if c.isAlphanum then c else '_') ∧
      (sanitizeMermaidId text sid).length ≤ 50 ∧
      ∀ c ∈ (sanitizeMermaidId text sid).data, c.isAlphanum ∨ c = '_') ∧
    (text = "" → truthy sid = true →
      sanitizeMermaidId text sid = "shape_" ++ pyStr sid) ∧
    (text = "" → truthy sid = false →
      sanitizeMermaidId text sid = "unknown") := by
  refine ⟨?_, ?_, ?_⟩
  · intro hne
    have hb : (text != "") = true := by
      simpa [bne_iff_ne] using hne
    have hdata : (sanitizeMermaidId text sid).data =
        (text.data.map (fun c => if c.isAlphanum then c else '_')).take 50 := by
      simp [sanitizeMermaidId, hb]
    refine ⟨by rw [hdata, List.map_take], ?_, ?_⟩
    · have : (sanitizeMermaidId text sid).length =
          (sanitizeMermaidId text sid).data.length := rfl
      rw [this, hdata, List.length_take]
      omega
    · intro c hc
      rw [hdata] at hc
      have hc' := List.mem_of_mem_take hc
      obtain ⟨a, _, ha⟩ := List.mem_map.mp hc'
      by_cases hal : a.isAlphanum
      · left; rw [← ha]; simp [hal]
      · right; rw [← ha]; simp [hal]
  · intro h0 ht
    simp [sanitizeMermaidId, h0, ht]
  · intro h0 ht
    simp [sanitizeMermaidId, h0, ht]

/-- Witness for C4 (amended): concrete instantiations of all three
branches. -/
theorem c4_sanitize_amended_witness :
    sanitizeMermaidId "a b!" .none = "a_b_" ∧
    sanitizeMermaidId "" (.str "7") = "shape_7" ∧
    sanitizeMermaidId "" .none = "unknown" := by
  refine ⟨?_, ?_, ?_⟩
  · have h := (c4_sanitize_amended "a b!" .none).1 (by decide)
    have hd := h.1
    apply String.ext
    rw [hd]
    decide
  · exact (c4_sanitize_amended "" (.str "7")).2.1 rfl (by decide)
  · exact (c4_sanitize_amended "" .none).2.2 rfl (by decide)

/-!
## Diagram Renderer — `_generate_mermaid_diagram` (lines 409–510)
-/

/-- Python substring containment over character lists
(`pat in s`, for non-empty `pat`). -/
def charsContains (pat : List Char) : List Char → Bool
  | [] => pat.isEmpty
  | c :: rest => pat.isPrefixOf (c :: rest) || charsContains pat rest

/-- Python `pat in s` for strings. -/
def strContains (s pat : String) : Bool :=
  charsContains pat.data s.data

/-- Python `s.startswith(pre)`. -/
def pyStartsWith (s pre : String) : Bool :=
  pre.data.isPrefixOf s.data

/-- Python `text.replace('"', "'")`: a single-character pattern, so the
replacement is the character-wise map. -/
def pyReplaceQuote (s : String) : String :=
  String.mk (s.data.map (fun c => if c = '"' then Char.ofNat 39 else c))

/-- Setup-bucket test of line 485: lowercased text contains "setup" or
starts with "0" or "1". -/
def setupTest (t : String) : Bool :=
  strContains t "setup" || pyStartsWith t "0" || pyStartsWith t "1"

/-- Staging-bucket test of line 487. -/
def stagingTest (t : String) : Bool :=
  strContains t "staging" || pyStartsWith t "2"

/-- Finalization-bucket test of line 489. -/
def finalTest (t : String) : Bool :=
  strContains t "finalization" || pyStartsWith t "3"

/-- The `if/elif/elif` classification loop of lines 483–490: each shape
is appended to at most one bucket, trying setup, then staging, then
finalization on its lowercased text. -/
def bucketFold :
    List ShapeRecord → List ShapeRecord × List ShapeRecord × List ShapeRecord
  | [] => ([], [], [])
  | s :: rest =>
      let b := bucketFold rest
      let t := pyLower s.text
      if setupTest t then (s :: b.1, b.2.1, b.2.2)
      else if stagingTest t then (b.1, s :: b.2.1, b.2.2)
      else if finalTest t then (b.1, b.2.1, s :: b.2.2)
      else b

/-- Python dict assignment `m[k] = v` on a string-keyed dict. -/
def smInsert (m : List (String × String)) (k v : String) :
    List (String × String) :=
  match m with
  | [] => [(k, v)]
  | kv :: rest => if kv.1 == k then (k, v) :: rest else kv :: smInsert rest k v

/-- One iteration of the shape-map loop (lines 423–436): map the
shape's id to its text (synthesizing `Image_<id>` for textless
image-bearing shapes), then map each texty sub-shape under the key
`<id>_<subtext>`. -/
def shapeMapStep (m : List (String × String)) (shape : ShapeRecord) :
    List (String × String) :=
  let m1 :=
    if truthy shape.id then
      let text := shape.text
      let text :=
        if text == "" && shape.has_image then "Image_" ++ pyStr shape.id
        else text
      if text != "" then smInsert m (pyStr shape.id) text else m
    else m
  shape.sub_shapes.foldl
    (fun acc sub =>
      if sub.text != "" then
        smInsert acc (pyStr shape.id ++ "_" ++ sub.text) sub.text
      else acc) m1

/-- Page-level media nodes (lines 439–442); iterating the possibly
empty list subsumes the `if page_data.get('page_media'):` guard. -/
def pageMediaLines (media : List MediaItem) : List String :=
  (enumFrom 0 media).map (fun im =>
    "    page_image_" ++ toString im.1 ++ "[\"📷 Page Image " ++
      toString (im.1 + 1) ++ "\"]")

/-- One iteration of the node-emission loop (lines 445–462); the state
is the emitted lines together with the `added_nodes` set. -/
def nodeLinesStep (st : List String × List String) (shape : ShapeRecord) :
    List String × List String :=
  let text := shape.text
  let text :=
    if text == "" && shape.has_image then "Image_" ++ pyStr shape.id
    else text
  if text != "" && truthy shape.id then
    let node_id := sanitizeMermaidId text shape.id
    if st.2.contains node_id then st
    else
      let display := pyReplaceQuote text
      let display := if shape.has_image then display ++ " 📷" else display
      (st.1 ++ ["    " ++ node_id ++ "[\"" ++ display ++ "\"]"],
       st.2 ++ [node_id])
  else st

/-- Edge lines for explicit connections (lines 468–472): only pairs
with both endpoints in the shape map are rendered. -/
def connectionLines (sm : List (String × String))
    (conns : List (String × String)) : List String :=
  conns.foldl
    (fun acc ft =>
      match sm.lookup ft.1, sm.lookup ft.2 with
      | some tf, some tt =>
          acc ++ ["    " ++ sanitizeMermaidId tf (.str ft.1) ++ " --> " ++
            sanitizeMermaidId tt (.str ft.2)]
      | _, _ => acc) []

/-- The no-connections fallback edges (lines 493–507): first setup
shape to first staging shape, first staging to first finalization, each
only when both buckets are non-empty and both texts truthy. -/
def fallbackLines (shapes : List ShapeRecord) : List String :=
  let b := bucketFold shapes
  (match b.1, b.2.1 with
   | s :: _, t :: _ =>
       if s.text != "" && t.text != "" then
         ["    " ++ sanitizeMermaidId s.text s.id ++ " --> " ++
           sanitizeMermaidId t.text t.id]
       else []
   | _, _ => []) ++
  (match b.2.1, b.2.2 with
   | s :: _, t :: _ =>
       if s.text != "" && t.text != "" then
         ["    " ++ sanitizeMermaidId s.text s.id ++ " --> " ++
           sanitizeMermaidId t.text t.id]
       else []
   | _, _ => [])

/-- `_generate_mermaid_diagram(page_data)`, as its list of lines. -/
def generateMermaidLines (pd : PageData) : List String :=
  let sm := pd.shapes.foldl shapeMapStep []
  let nodePart := pd.shapes.foldl nodeLinesStep ([], [])
  ["```mermaid", "graph TD"]
  ++ pageMediaLines pd.page_media
  ++ nodePart.1
  ++ (if !pd.connections.isEmpty then
        ["", "    %% Connections"] ++ connectionLines sm pd.connections
      else
        ["", "    %% Hierarchical structure (inferred)"] ++
          fallbackLines pd.shapes)
  ++ ["```"]

/-- `_generate_mermaid_diagram(page_data)` (the `"\n".join`). -/
def generateMermaidDiagram (pd : PageData) : String :=
  String.intercalate "\n" (generateMermaidLines pd)

/-- The concrete page of C8: three shapes with ids "1","2","3", texts
"Start","Process","End", and connections ("1","2") and ("2","3"). -/
def c8Page : PageData :=
  { name := "Page 1"
    shapes :=
      [{ text := "Start", name := "", id := .str "1", type := ""
         sub_shapes := [], connections := [], has_image := false },
       { text := "Process", name := "", id := .str "2", type := ""
         sub_shapes := [], connections := [], has_image := false },
       { text := "End", name := "", id := .str "3", type := ""
         sub_shapes := [], connections := [], has_image := false }]
    connections := [("1", "2"), ("2", "3")]
    images_count := 0
    page_media := [] }

/-- C8.  The example page renders a diagram block consisting of exactly
the fence and header lines, three node-declaration lines (using the
sanitized identifiers `Start`, `Process`, `End`), and exactly two edge
lines `Start --> Process` and `Process --> End`; in particular the block
has exactly three node lines and exactly two edge lines. -/
theorem c8_mermaid_example :
    generateMermaidLines c8Page =
      ["```mermaid", "graph TD",
       "    Start[\"Start\"]", "    Process[\"Process\"]", "    End[\"End\"]",
       "", "    %% Connections",
       "    Start --> Process", "    Process --> End", "```"] ∧
    (generateMermaidLines c8Page).countP (fun l => strContains l "-->") = 2 ∧
    (generateMermaidLines c8Page).countP (fun l => strContains l "[\"") = 3 := by
  refine ⟨by rfl, by rfl, by rfl⟩

/-- The three buckets of the fallback classifier are the three filters
induced by the `if/elif/elif` chain: setup first, then staging among the
non-setup shapes, then finalization among the rest. -/
theorem bucketFold_eq_filters (shapes : List ShapeRecord) :
    (bucketFold shapes).1 =
      shapes.filter (fun s => setupTest (pyLower s.text)) ∧
    (bucketFold shapes).2.1 =
      shapes.filter (fun s =>
        !setupTest (pyLower s.text) && stagingTest (pyLower s.text)) ∧
    (bucketFold shapes).2.2 =
      shapes.filter (fun s =>
        !setupTest (pyLower s.text) && !stagingTest (pyLower s.text) &&
          finalTest (pyLower s.text)) := by
  induction shapes with
  | nil => exact ⟨rfl, rfl, rfl⟩
  | cons s rest ih =>
      obtain ⟨ih1, ih2, ih3⟩ := ih
      by_cases h1 : setupTest (pyLower s.text) <;>
        by_cases h2 : stagingTest (pyLower s.text) <;>
        by_cases h3 : finalTest (pyLower s.text) <;>
        refine ⟨?_, ?_, ?_⟩ <;>
        simp [bucketFold, h1, h2, h3, ih1, ih2, ih3]

/-- C10.  In the no-connections fallback, bucket classification is
mutually exclusive with first-match priority setup → staging →
finalization: the three buckets are the filters of the chain's
predicates, so every shape lands in at most one bucket; a shape whose
lowercased text passes the setup test is never in the staging or
finalization bucket (even if its text also contains "staging" or
"finalization"), and one passing the staging test is never in the
finalization bucket. -/
theorem c10_bucket_priority (shapes : List ShapeRecord) :
    (bucketFold shapes).1 =
      shapes.filter (fun s => setupTest (pyLower s.text)) ∧
    (bucketFold shapes).2.1 =
      shapes.filter (fun s =>
        !setupTest (pyLower s.text) && stagingTest (pyLower s.text)) ∧
    (bucketFold shapes).2.2 =
      shapes.filter (fun s =>
        !setupTest (pyLower s.text) && !stagingTest (pyLower s.text) &&
          finalTest (pyLower s.text)) ∧
    (∀ sh : ShapeRecord, setupTest (pyLower sh.text) = true →
      sh ∉ (bucketFold shapes).2.1 ∧ sh ∉ (bucketFold shapes).2.2) ∧
    (∀ sh : ShapeRecord, stagingTest (pyLower sh.text) = true →
      sh ∉ (bucketFold shapes).2.2) := by
  obtain ⟨h1, h2, h3⟩ := bucketFold_eq_filters shapes
  refine ⟨h1, h2, h3, ?_, ?_⟩
  · intro s hs
    constructor
    · rw [h2]
      intro hmem
      have := (List.mem_filter.mp hmem).2
      simp [hs] at this
    · rw [h3]
      intro hmem
      have := (List.mem_filter.mp hmem).2
      simp [hs] at this
  · intro s hs
    rw [h3]
    intro hmem
    have := (List.mem_filter.mp hmem).2
    simp [hs] at this

/-- A shape whose text passes the setup test (starts with "1") while
also containing "staging" and "finalization". -/
def c10Shape : ShapeRecord :=
  { text := "1 staging finalization", name := "", id := .none, type := ""
    sub_shapes := [], connections := [], has_image := false }

/-- Witness for C10: `c10Shape` passes the setup test and also contains
"staging" and "finalization", yet it lands only in the setup bucket. -/
theorem c10_bucket_priority_witness :
    setupTest (pyLower c10Shape.text) = true ∧
    strContains (pyLower c10Shape.text) "staging" = true ∧
    strContains (pyLower c10Shape.text) "finalization" = true ∧
    (bucketFold [c10Shape]).1 = [c10Shape] ∧
    c10Shape ∉ (bucketFold [c10Shape]).2.1 ∧
    c10Shape ∉ (bucketFold [c10Shape]).2.2 := by
  have hp := (c10_bucket_priority [c10Shape]).2.2.2.1 c10Shape (by rfl)
  exact ⟨by rfl, by rfl, by rfl, by rfl, hp.1, hp.2⟩

/-!
## Report Renderer — `_to_markdown` (lines 512–613)
-/

/-- The document-level metadata mapping (built in `convert`); `none`
models the initial empty dict. -/
structure Metadata where
  title : Value
  creator : Value
  company : Value
deriving Repr

/-- The whole-document record assembled by `convert`. -/
structure DocumentRecord where
  file_name : String
  pages : List PageData
  metadata : Option Metadata
  total_images : Nat
deriving Repr

/-- Metadata section (lines 528–533): emitted only when the metadata
dict is non-empty and at least one value is truthy; each truthy value
becomes one bullet with its key capitalized (`key.title()`). -/
def metadataLines : Option Metadata → List String
  | Option.none => []
  | some m =>
      if truthy m.title || truthy m.creator || truthy m.company then
        ["## Metadata\n"]
        ++ (if truthy m.title then ["- **Title**: " ++ pyStr m.title] else [])
        ++ (if truthy m.creator then
              ["- **Creator**: " ++ pyStr m.creator] else [])
        ++ (if truthy m.company then
              ["- **Company**: " ++ pyStr m.company] else [])
        ++ [""]
      else []

/-- The rendering predicate of the detailed-shapes loop (lines
576–577): text, name, TYPE, sub-shapes or image — the record's id plays
no role here. -/
def reportPred (s : ShapeRecord) : Bool :=
  s.text != "" || s.name != "" || s.type != "" || !s.sub_shapes.isEmpty ||
    s.has_image

/-- One rendered shape block (lines 579–606).  In the sub-shape bullet
the dict-lookup default `f"Image_{id}"` of line 603 is inert because the
`text` key is always present in a record, so the bullet text is the
sub-shape's own (possibly empty) text. -/
def shapeDetailBlock (num : Nat) (s : ShapeRecord) : List String :=
  ["##### Shape " ++ toString num]
  ++ (if s.type != "" then ["- **Type**: " ++ s.type] else [])
  ++ (if s.name != "" then ["- **Name**: " ++ s.name] else [])
  ++ (if s.text != "" then ["- **Text**: " ++ pyStrip s.text] else [])
  ++ (if !(isNoneV s.id) then ["- **ID**: " ++ pyStr s.id] else [])
  ++ (if s.has_image then ["- **Contains Image**: ✅ Yes"] else [])
  ++ (if !s.sub_shapes.isEmpty then
        ["- **Sub-shapes**: " ++ toString s.sub_shapes.length]
        ++ (s.sub_shapes.map (fun sub =>
              if sub.text != "" || sub.has_image then
                ["  - " ++ sub.text ++ (if sub.has_image then " 📷" else "")]
              else [])).flatten
      else [])
  ++ [""]

/-- The detailed-shapes loop (lines 573–606): `n` is the running
`shape_num`; returns the final counter and the emitted lines. -/
def detailLoop (n : Nat) : List ShapeRecord → Nat × List String
  | [] => (n, [])
  | s :: rest =>
      if reportPred s then
        let r := detailLoop (n + 1) rest
        (r.1, shapeDetailBlock (n + 1) s ++ r.2)
      else detailLoop n rest

/-- The detailed-shapes subsection (lines 570–609), emitted when the
page has at least one shape; when the loop rendered nothing the
no-shapes-with-content notice is substituted. -/
def pageDetailLines (shapes : List ShapeRecord) : List String :=
  ["#### Detailed Shape Information\n",
   "**Total shapes**: " ++ toString shapes.length ++ "\n"]
  ++ (let r := detailLoop 0 shapes
      r.2 ++
        (if r.1 = 0 then ["*No shapes with content found on this page*\n"]
         else []))

/-- One page's section of the report (lines 541–611). -/
def pageLines (idx : Nat) (page : PageData) : List String :=
  ["### Page " ++ toString idx ++ ": " ++ page.name ++ "\n"]
  ++ (if page.images_count > 0 then
        ["**Images found on this page**: " ++ toString page.images_count
          ++ "\n"]
      else [])
  ++ (if !page.page_media.isEmpty then
        ["#### Page-Level Media (" ++ toString page.page_media.length ++
          " items)\n"]
        ++ ((enumFrom 0 page.page_media).map (fun im =>
              ["**Media Item " ++ toString (im.1 + 1) ++ "** (Source: " ++
                im.2.source ++ ")", ""])).flatten
      else [])
  ++ (if !page.shapes.isEmpty || !page.page_media.isEmpty then
        ["#### Diagram\n", generateMermaidDiagram page, ""]
      else [])
  ++ (if !page.connections.isEmpty then
        ["#### Connections (" ++ toString page.connections.length ++
          " total)\n"]
        ++ page.connections.map (fun ft =>
             "- Shape " ++ ft.1 ++ " → Shape " ++ ft.2)
        ++ [""]
      else [])
  ++ (if !page.shapes.isEmpty then pageDetailLines page.shapes
      else ["*No shapes found on this page*\n"])

/-- `_to_markdown(data)`, as its list of appended fragments. -/
def toMarkdownLines (data : DocumentRecord) : List String :=
  ["# " ++ data.file_name ++ "\n"]
  ++ metadataLines data.metadata
  ++ ["**Total Images Found**: " ++ toString data.total_images ++ "\n",
      "## Pages (" ++ toString data.pages.length ++ " total)\n"]
  ++ ((enumFrom 1 data.pages).map (fun ip => pageLines ip.1 ip.2)).flatten

/-- `_to_markdown(data)` (the `"\n".join`). -/
def toMarkdown (data : DocumentRecord) : String :=
  String.intercalate "\n" (toMarkdownLines data)

/-- Spec-level description of the detailed-shapes subsection body: the
blocks of exactly the shapes passing `reportPred`, numbered from
`n + 1`. -/
def numberedBlocks : Nat → List ShapeRecord → List String
  | _, [] => []
  | n, s :: rest => shapeDetailBlock (n + 1) s ++ numberedBlocks (n + 1) rest

/-- The source loop `detailLoop` renders exactly the `reportPred`
shapes, consecutively numbered. -/
theorem detailLoop_eq_numbered (shapes : List ShapeRecord) :
    ∀ n, detailLoop n shapes =
      (n + (shapes.filter reportPred).length,
       numberedBlocks n (shapes.filter reportPred)) := by
  induction shapes with
  | nil => intro n; simp [detailLoop, numberedBlocks]
  | cons s rest ih =>
      intro n
      by_cases hp : reportPred s
      · simp only [detailLoop, hp, if_pos, List.filter_cons_of_pos,
          numberedBlocks, ih (n + 1)]
        refine Prod.ext ?_ rfl
        simp [List.length_cons]
        omega
      · simp [detailLoop, hp, List.filter_cons_of_neg, ih n]

/-- A shape whose only observable content under the §3 retention
predicate is a non-absent id. -/
def c9Shape : ShapeRecord :=
  { text := "", name := "", id := .str "7", type := ""
    sub_shapes := [], connections := [], has_image := false }

/-- A shape whose only content is a non-empty `type` (not part of the
§3 retention predicate). -/
def c9TShape : ShapeRecord :=
  { text := "", name := "", id := .none, type := "Box"
    sub_shapes := [], connections := [], has_image := false }

/-- Counterexample to C9 as stated: a shape carrying only a non-absent
id satisfies the §3 retention predicate yet is NOT listed — the
no-shapes-with-content notice is substituted; conversely a shape
carrying only a `type` fails the §3 retention predicate yet IS
listed. -/
theorem c9_counterexample :
    retainShape c9Shape = true ∧
    pageDetailLines [c9Shape] =
      ["#### Detailed Shape Information\n", "**Total shapes**: 1\n",
       "*No shapes with content found on this page*\n"] ∧
    retainShape c9TShape = false ∧
    pageDetailLines [c9TShape] =
      ["#### Detailed Shape Information\n", "**Total shapes**: 1\n",
       "##### Shape 1", "- **Type**: Box", ""] := by
  exact ⟨by rfl, by rfl, by rfl, by rfl⟩

/-- C9, amended.  The detailed-shapes subsection lists exactly those
shapes passing the REPORT predicate — truthy text, name, TYPE,
sub-shapes or image flag; unlike the §3 retention predicate this tests
`type` and ignores the id — numbered consecutively from 1, and when no
shape on the page passes it, a single no-shapes-with-content notice is
substituted for the blocks. -/
theorem c9_detail_section_amended (shapes : List ShapeRecord) :
    pageDetailLines shapes =
      ["#### Detailed Shape Information\n",
       "**Total shapes**: " ++ toString shapes.length ++ "\n"]
      ++ numberedBlocks 0 (shapes.filter reportPred)
      ++ (if (shapes.filter reportPred).isEmpty then
            ["*No shapes with content found on this page*\n"]
          else []) := by
  unfold pageDetailLines
  rw [detailLoop_eq_numbered shapes 0]
  simp [List.isEmpty_iff_length_eq_zero]
